import Mathlib

/-!
Shallow embedding of the core data model and cache layer of the
`anime-list-apis` python library, together with proofs checking the
natural-language specification against it.

Conventions of the embedding:
* Python exceptions become an explicit error type `PyErr`; fallible
  operations return `Except PyErr _`.
* Python `dict`s with a fixed key set (the per-site id map, the per-locale
  title map) become structures with one `Option` field per key, since the
  constructors normalize missing entries to `None`.
* Python `float` time values and the rational arithmetic of score
  conversion are embedded as `ℚ`; Python's `round` (banker's rounding,
  half to even) is `pyRound`.
* `deepcopy` of a value object is the identity on the embedded value; what
  it buys in Python (detachment from the caller's mutable object) is made
  visible in the small heap model `HeapCache` used for the aliasing
  properties.
-/

namespace AnimeList

/-- Errors raised by the python code: `TypeError`, `ValueError`,
`AttributeError` (attribute lookup failure) and `NotImplementedError`. -/
inductive PyErr where
  | typeError
  | valueError
  | attributeError
  | notImplementedError
deriving DecidableEq, Repr

/-- Python's built-in `round` on an exact rational: round half to even
(banker's rounding), as used by `Score._Score__convert`. -/
def pyRound (q : ℚ) : ℤ :=
  let f := ⌊q⌋
  let r := q - f
  if r < 1/2 then f else if 1/2 < r then f + 1 else if Even f then f else f + 1

/-- The three site namespaces, from `attributes/Id.py` (`IdType`). -/
inductive IdType where
  | MYANIMELIST
  | ANILIST
  | KITSU
deriving DecidableEq, Repr

/-- Modelled from the spec: `attributes/MediaType.py` is not under `src/`;
the spec's glossary defines the media kind as the anime/manga discriminator,
and every use in `src/` matches `MediaType.ANIME` / `MediaType.MANGA`. -/
inductive MediaType where
  | ANIME
  | MANGA
deriving DecidableEq, Repr

/-- Name of a `MediaType` member, as used for cache tags and discriminators. -/
def MediaType.name : MediaType → String
  | .ANIME => "ANIME"
  | .MANGA => "MANGA"

/-- Modelled from the spec: `attributes/ConsumingStatus.py` is not under
`src/`; the spec (§4.4) lists the states `PLANNING, CURRENT, PAUSED,
DROPPED, COMPLETED, REPEATING`, exactly the members `src/` code refers to. -/
inductive ConsumingStatus where
  | PLANNING
  | CURRENT
  | PAUSED
  | DROPPED
  | COMPLETED
  | REPEATING
deriving DecidableEq, Repr

/-- Modelled from the spec: `attributes/ReleasingStatus.py` is not under
`src/`; the spec (§4.4) distinguishes `FINISHED`, `RELEASING`, `CANCELLED`
and unreleased media, and `MediaListEntry.py` refers to the members
`FINISHED`, `RELEASING`, `CANCELLED`, `NOT_RELEASED`. -/
inductive ReleasingStatus where
  | FINISHED
  | RELEASING
  | CANCELLED
  | NOT_RELEASED
deriving DecidableEq, Repr

/-- The title locale kinds from `attributes/Title.py` (`TitleType`); the
enum value is the number used by the descending sort in `Title.__init__`. -/
inductive TitleType where
  | ROMAJI
  | ENGLISH
  | JAPANESE
deriving DecidableEq, Repr

/-- The numeric `value` of a `TitleType` member (`ROMAJI = 1`, `ENGLISH = 2`,
`JAPANESE = 3`). -/
def TitleType.value : TitleType → ℤ
  | .ROMAJI => 1
  | .ENGLISH => 2
  | .JAPANESE => 3

/-- Score scales from `attributes/Score.py` (`ScoreType`). -/
inductive ScoreType where
  | THREE_POINT
  | FIVE_POINT
  | TEN_POINT
  | TEN_POINT_DECIMAL
  | PERCENTAGE
deriving DecidableEq, Repr

/-- The enum `value` of a `ScoreType`: the maximum score of that scale. -/
def ScoreType.maxVal : ScoreType → ℤ
  | .THREE_POINT => 3
  | .FIVE_POINT => 5
  | .TEN_POINT => 10
  | .TEN_POINT_DECIMAL => 20
  | .PERCENTAGE => 100

/-- A `Score` object: the stored points (`self.__score`) and its scale
(`self.mode`), from `attributes/Score.py`. -/
structure Score where
  score : ℤ
  mode : ScoreType
deriving DecidableEq, Repr

/-- `Score.__init__`: after the `int` / `ScoreType` type checks, raises
`ValueError` unless `0 <= score <= score_type.value`. -/
def scoreInit (score : ℤ) (score_type : ScoreType) : Except PyErr Score :=
  if score < 0 ∨ score > score_type.maxVal then .error .valueError
  else .ok ⟨score, score_type⟩

/-- `Score.__convert` on the underlying rational: `score / source.value *
dest.value`, passed through `round`. -/
def scoreConvertVal (score : ℤ) (source dest : ScoreType) : ℤ :=
  pyRound ((score : ℚ) / (source.maxVal : ℚ) * (dest.maxVal : ℚ))

/-- `Score.get`: with no argument the raw stored score, otherwise the score
converted to the requested scale. -/
def scoreGet (s : Score) (score_type : Option ScoreType) : ℤ :=
  match score_type with
  | none => s.score
  | some t => scoreConvertVal s.score s.mode t

/-- `Score.convert`: replaces the stored score by its conversion and the
mode by the new scale. -/
def scoreConvert (s : Score) (score_type : ScoreType) : Score :=
  ⟨scoreConvertVal s.score s.mode score_type, score_type⟩

/-- A `Date` from `attributes/Date.py`: year, month and day. -/
structure Date where
  year : ℤ
  month : ℤ
  day : ℤ
deriving DecidableEq, Repr

/-- An `Id` from `attributes/Id.py`: one nullable integer per site.
`Id.__init__` drops `None` values from the argument dictionary and then
fills every missing `IdType` key back in with `None`, so an instance is
exactly a total map from the three sites to nullable integers. -/
structure Id where
  myanimelist : Option ℤ
  anilist : Option ℤ
  kitsu : Option ℤ
deriving DecidableEq, Repr

/-- `Id.__init__` on the normalized argument (each site's entry, `none`
when absent or `None`): raises `ValueError` when every entry is `none`. -/
def idInit (mal anilist kitsu : Option ℤ) : Except PyErr Id :=
  if mal = none ∧ anilist = none ∧ kitsu = none then .error .valueError
  else .ok ⟨mal, anilist, kitsu⟩

/-- `Id.get`: the stored nullable id of the given site. -/
def idGet (i : Id) (id_type : IdType) : Option ℤ :=
  match id_type with
  | .MYANIMELIST => i.myanimelist
  | .ANILIST => i.anilist
  | .KITSU => i.kitsu

/-- `Id.serialize` as `attributes/Id.py` lines 82-88 define it: the body is
`raise NotImplementedError()`, overriding the generic
`Serializable.serialize`. Every call raises. -/
def idSerialize (_ : Id) : Except PyErr (List (String × Option ℤ)) :=
  .error .notImplementedError

/-- Python runtime values, for the dynamic checks of
`Serializable.type_check` and `Id.set`. -/
inductive PyVal where
  | vint (n : ℤ)
  | vbool (b : Bool)
  | vstr (s : String)
  | vfloat (q : ℚ)
  | vnone
deriving DecidableEq, Repr

/-- Python types a value can be checked against here. -/
inductive PyType where
  | tint
  | tbool
  | tstr
  | tfloat
deriving DecidableEq, Repr

/-- Python's `isinstance` on the embedded values; `bool` is a subclass of
`int`, so `isinstance(True, int)` is `True`. -/
def isinstance : PyVal → PyType → Bool
  | .vint _, .tint => true
  | .vbool _, .tint => true
  | .vbool _, .tbool => true
  | .vstr _, .tstr => true
  | .vfloat _, .tfloat => true
  | _, _ => false

/-- `Serializable.type_check` (`Serializable.py` lines 106-127): `None`
passes only with `none_allowed`; a non-instance fails; and when the target
type is `int`, a `bool` instance is rejected even though it is an `int`. -/
def typeCheck (obj : PyVal) (typ : PyType) (none_allowed : Bool) : Bool :=
  if none_allowed ∧ obj = .vnone then true
  else if ¬ isinstance obj typ then false
  else if typ = .tint then ¬ isinstance obj .tbool
  else true

/-- `Serializable.ensure_type`: raises `TypeError` iff `type_check` fails. -/
def ensureType (obj : PyVal) (typ : PyType) (none_allowed : Bool) :
    Except PyErr Unit :=
  if typeCheck obj typ none_allowed then .ok () else .error .typeError

/-- `Id.set` (`attributes/Id.py` lines 69-80): unlike the constructors it
does NOT call `ensure_type`; it tests bare `isinstance(_id, int)` and
otherwise assigns the given value to the site's slot unchanged. The result
is the value stored into `self.__ids[id_type]` on success. -/
def idSet (_id : PyVal) : Except PyErr PyVal :=
  if ¬ isinstance _id .tint then .error .typeError
  else .ok _id

/-- The per-locale title map of a `Title` object: one nullable string per
`TitleType`, since `Title.__init__` fills missing keys with `None`. An
entry is `some` exactly when the locale is populated with a string (the
constructor filters out every value that fails `type_check(value, str)`). -/
structure TitleMap where
  romaji : Option String
  english : Option String
  japanese : Option String
deriving DecidableEq, Repr

/-- Lookup in a `TitleMap`. -/
def tmGet (m : TitleMap) : TitleType → Option String
  | .ROMAJI => m.romaji
  | .ENGLISH => m.english
  | .JAPANESE => m.japanese

/-- A constructed `Title`: the (normalized) locale map and the default
locale (`self.default`). -/
structure Title where
  titles : TitleMap
  dftype : TitleType
deriving DecidableEq, Repr

/-- The default-reselection scan of `Title.__init__` (`Title.py` lines
61-67), run when the requested default has no populated value: the locale
kinds sorted by `value` descending (`JAPANESE, ENGLISH, ROMAJI`) are walked
in order and every populated one overwrites `default`, so the last
populated one in that order — the populated kind of smallest `value` —
wins. -/
def titleScanDefault (m : TitleMap) (dflt : TitleType) : TitleType :=
  let d1 := if (tmGet m .JAPANESE).isSome then .JAPANESE else dflt
  let d2 := if (tmGet m .ENGLISH).isSome then .ENGLISH else d1
  if (tmGet m .ROMAJI).isSome then .ROMAJI else d2

/-- `Title.__init__` on the filtered locale map (entries failing the string
type check already dropped to `none`): raises `ValueError` when nothing is
populated, otherwise keeps the requested default if populated and runs the
descending scan if not. -/
def titleInit (m : TitleMap) (dflt : TitleType) : Except PyErr Title :=
  if m.romaji = none ∧ m.english = none ∧ m.japanese = none then
    .error .valueError
  else if (tmGet m dflt).isSome then .ok ⟨m, dflt⟩
  else .ok ⟨m, titleScanDefault m dflt⟩

/-- `Title.get`: with no argument the default locale's entry, otherwise the
requested locale's entry. -/
def titleGet (t : Title) (title_type : Option TitleType) : Option String :=
  match title_type with
  | none => tmGet t.titles t.dftype
  | some ty => tmGet t.titles ty

/-- Relation kinds from `attributes/Relation.py` (`RelationType`). -/
inductive RelationType where
  | PREQUEL
  | SEQUEL
  | PARENT
  | SIDE_STORY
  | SUMMARY
  | CHARACTER
  | SPIN_OFF
  | OTHER
  | ADAPTATION
  | ALTERNATIVE
deriving DecidableEq, Repr

/-- A relation edge between two entries (`attributes/Relation.py`). -/
structure Relation where
  source : Id
  source_type : MediaType
  dest : Id
  dest_type : MediaType
  rtype : RelationType
deriving DecidableEq, Repr

/-- The subtype-specific counts of a media record: `AnimeData` carries
`episode_count` and `episode_duration`, `MangaData` carries
`chapter_count` and `volume_count` (`MediaData.py`). Which constructor is
used records the record's concrete python class. -/
inductive MediaExtra where
  | anime (episode_count episode_duration : Option ℤ)
  | manga (chapter_count volume_count : Option ℤ)
deriving DecidableEq, Repr

/-- The common attributes a `MediaData.__init__` call assigns
(`MediaData.py` lines 102-109), plus the subclass fields. -/
structure MediaData where
  media_type : MediaType
  id : Id
  title : Title
  relations : List Relation
  releasing_status : ReleasingStatus
  releasing_start : Option Date
  releasing_end : Option Date
  cover_url : Option String
  extra : MediaExtra
deriving DecidableEq, Repr

/-- `AnimeData.__init__`: forwards to `MediaData.__init__` with
`MediaType.ANIME` and stores the anime-specific counts. -/
def mkAnimeData (id : Id) (title : Title) (relations : List Relation)
    (releasing_status : ReleasingStatus) (releasing_start releasing_end : Option Date)
    (cover_url : Option String) (episode_count episode_duration : Option ℤ) :
    MediaData :=
  ⟨.ANIME, id, title, relations, releasing_status, releasing_start,
    releasing_end, cover_url, .anime episode_count episode_duration⟩

/-- The subtype-specific progress counters of a user record
(`MediaUserData.py`): `AnimeUserData` adds `episode_progress`,
`MangaUserData` adds `chapter_progress` and `volume_progress`. -/
inductive UserExtra where
  | anime (episode_progress : ℤ)
  | manga (chapter_progress volume_progress : ℤ)
deriving DecidableEq, Repr

/-- The attributes a `MediaUserData.__init__` call assigns
(`MediaUserData.py` lines 60-65): `media_type`, `username`, `score`,
`consuming_status`, `consuming_start`, `consuming_end` — and NOTHING
else; in particular no attribute named `id` is ever set on a user-data
object anywhere in `MediaUserData.py`. The subclass progress counters are
in `extra`. -/
structure MediaUserData where
  media_type : MediaType
  username : String
  score : Score
  consuming_status : ConsumingStatus
  consuming_start : Option Date
  consuming_end : Option Date
  extra : UserExtra
deriving DecidableEq, Repr

/-- `AnimeUserData.__init__`: forwards to `MediaUserData.__init__` with
`MediaType.ANIME` and stores `episode_progress`. -/
def mkAnimeUserData (username : String) (score : Score)
    (consuming_status : ConsumingStatus) (consuming_start consuming_end : Option Date)
    (episode_progress : ℤ) : MediaUserData :=
  ⟨.ANIME, username, score, consuming_status, consuming_start,
    consuming_end, .anime episode_progress⟩

/-- Python attribute lookup of `"id"` on a `MediaUserData` instance. No
statement of `MediaUserData.__init__`, `AnimeUserData.__init__` or
`MangaUserData.__init__` assigns an attribute named `id`, and neither
`MediaSerializable` nor `Serializable` defines one, so the lookup always
fails (`AttributeError`). -/
def userDataIdAttr (_ : MediaUserData) : Option Id := none

/-- The `isinstance` check of `MediaListEntry.__init__` lines 77-78: is the
media record an instance of the class `get_class_for_media_type` maps the
queried kind to (`AnimeData` for `ANIME`, `MangaData` otherwise)? In the
embedding the concrete class is recorded by the `extra` constructor. -/
def mediaIsClass (m : MediaData) : MediaType → Bool
  | .ANIME => match m.extra with | .anime _ _ => true | _ => false
  | .MANGA => match m.extra with | .manga _ _ => true | _ => false

/-- The `isinstance` check of `MediaListEntry.__init__` lines 79-80 for the
user record (`AnimeUserData` for `ANIME`, `MangaUserData` otherwise). -/
def userIsClass (u : MediaUserData) : MediaType → Bool
  | .ANIME => match u.extra with | .anime _ => true | _ => false
  | .MANGA => match u.extra with | .manga _ _ => true | _ => false

/-- A constructed media list entry, holding the attributes
`MediaListEntry.__init__` lines 87-100 would assign. -/
structure MediaListEntry where
  media_type : MediaType
  id : Id
  title : Title
  relations : List Relation
  releasing_status : ReleasingStatus
  releasing_start : Option Date
  releasing_end : Option Date
  cover_url : Option String
  username : String
  score : Score
  consuming_status : ConsumingStatus
  consuming_start : Option Date
  consuming_end : Option Date
  mediaExtra : MediaExtra
  userExtra : UserExtra
deriving DecidableEq, Repr

/-- `MediaListEntry.__init__` (`MediaListEntry.py` lines 68-103): after the
two `ensure_type` class checks it evaluates
`media_data.id != user_data.id`. The right operand reads attribute `id` of
the user record; `MediaUserData.__init__` sets no such attribute (see
`userDataIdAttr`), so the read raises `AttributeError` before the invariant
can be checked, and no entry is ever constructed. The dead remainder of the
body (the `ValueError` on mismatch and the attribute assignments) is
unreachable from this point. -/
def mediaListEntryInit (media_type : MediaType) (media_data : MediaData)
    (user_data : MediaUserData) : Except PyErr MediaListEntry :=
  if ¬ mediaIsClass media_data media_type then .error .typeError
  else if ¬ userIsClass user_data media_type then .error .typeError
  else match userDataIdAttr user_data with
    | none => .error .attributeError
    | some uid =>
      if media_data.id ≠ uid ∨ media_data.media_type ≠ user_data.media_type
          ∨ media_type ≠ media_data.media_type then .error .valueError
      else .ok ⟨media_type, media_data.id, media_data.title,
        media_data.relations, media_data.releasing_status,
        media_data.releasing_start, media_data.releasing_end,
        media_data.cover_url, user_data.username, user_data.score,
        user_data.consuming_status, user_data.consuming_start,
        user_data.consuming_end, media_data.extra, user_data.extra⟩

/-- `MediaUserData.is_valid_entry` (`MediaUserData.py` lines 67-89),
literally: `score_zero` is `score.get(PERCENTAGE) == 0`, the two date
flags are `is None` checks, and the three status groups are tested in the
source's order. -/
def isValidEntry (u : MediaUserData) : Bool :=
  let score_zero : Bool := scoreGet u.score (some .PERCENTAGE) == 0
  let begin_none : Bool := u.consuming_start.isNone
  let complete_none : Bool := u.consuming_end.isNone
  if u.consuming_status = .COMPLETED ∨ u.consuming_status = .REPEATING then
    !score_zero && !begin_none && !complete_none
  else if u.consuming_status = .DROPPED ∨ u.consuming_status = .CURRENT
      ∨ u.consuming_status = .PAUSED then
    !begin_none && complete_none
  else
    begin_none && complete_none && score_zero

/-- Association-list embedding of a python `dict`: lookup of the first
binding of a key. -/
def alookup {κ α : Type} [DecidableEq κ] : List (κ × α) → κ → Option α
  | [], _ => none
  | (k, v) :: rest, key => if k = key then some v else alookup rest key

/-- Association-list embedding of `dict` assignment: replace the binding of
the key, or append one. -/
def aset {κ α : Type} [DecidableEq κ] : List (κ × α) → κ → α → List (κ × α)
  | [], key, v => [(key, v)]
  | (k, w) :: rest, key, v =>
    if k = key then (key, v) :: rest else (k, w) :: aset rest key v

/-- Association-list embedding of `dict.pop`: drop the key's bindings. -/
def aremove {κ α : Type} [DecidableEq κ] (l : List (κ × α)) (key : κ) :
    List (κ × α) :=
  l.filter fun p => decide (p.1 ≠ key)

/-- One stored cache record (`Cache.__generate_empty_cache` leaf):
timestamp of the write plus the (deep-copied) payload. -/
structure CacheEntry (α : Type) where
  timestamp : ℚ
  data : α
deriving DecidableEq, Repr

/-- Python `str(...)` of the nullable id that reaches
`Cache.generate_id_tag`; `str(None)` is the string `"None"`. -/
def pyStr : Option ℤ → String
  | none => "None"
  | some n => toString n

/-- `Cache.generate_id_tag` (`Cache.py` lines 399-415):
`media_type.name + "-" + str(_id)`, plus `"-" + username` when given. -/
def generateIdTag (media_type : MediaType) (_id : Option ℤ)
    (username : Option String) : String :=
  let tag := media_type.name ++ "-" ++ pyStr _id
  match username with
  | none => tag
  | some u => tag ++ "-" ++ u

/-- The id argument accepted by the cache operations: a raw python value
(an `int`, or `None` leaking in from `Id.get`) or an `Id` object. -/
inductive IdArg where
  | raw (n : Option ℤ)
  | obj (i : Id)
deriving DecidableEq, Repr

/-- `Cache.__resolve_id` (`Cache.py` lines 386-397): an `int` passes
through; anything else has `.get(site_type)` called on it, which yields the
site's nullable id for an `Id` object and raises `AttributeError` for
`None`. -/
def resolveId (site_type : IdType) : IdArg → Except PyErr (Option ℤ)
  | .raw (some n) => .ok (some n)
  | .raw none => .error .attributeError
  | .obj i => .ok (idGet i site_type)

/-- Cache slot key: the site type and the generated tag (the model-kind
dimension of `cache[cache_type][site_type][tag]` is split into the two
typed slot lists of `CacheState`). -/
abbrev SlotKey := IdType × String

/-- What `Cache.write` froze to disk: the store's two slot maps at the time
of the last successful write. Payloads stand for their serialized forms,
which determine them. -/
structure CacheSnapshot where
  mediaPart : List (SlotKey × CacheEntry MediaData)
  userPart : List (SlotKey × CacheEntry MediaUserData)
deriving DecidableEq, Repr

/-- The in-memory cache (`Cache.__init__`): configuration, dirty counter,
the two typed slot maps and the backing file's contents (`none` before the
first write). -/
structure CacheState where
  expiration : ℚ
  write_after : ℕ
  change_count : ℕ
  mediaSlots : List (SlotKey × CacheEntry MediaData)
  userSlots : List (SlotKey × CacheEntry MediaUserData)
  fileData : Option CacheSnapshot
deriving DecidableEq, Repr

/-- `Cache.write` (`Cache.py` lines 85-115): serializes the whole store and
dumps it to the single JSON file. Serializing any `MediaData` record calls
`Id.serialize` (`MediaData.py` line 124), which raises
`NotImplementedError`, so the dump dies before the file is opened whenever
a media slot is occupied; user records serialize fine. Note the function
never touches `change_count`. -/
def writeCache (s : CacheState) : Except PyErr CacheState :=
  match s.mediaSlots with
  | [] => .ok { s with fileData := some ⟨[], s.userSlots⟩ }
  | _ :: _ => .error .notImplementedError

/-- `Cache.__add_cached` (`Cache.py` lines 140-176) for a media record:
resolve the id, build the tag (media records have no `username` attribute,
so the tag carries none), store a deep copy stamped with the current time,
bump `change_count` unless suppressed, and call `write` once
`change_count >= write_after`. -/
def addCachedMedia (s : CacheState) (now : ℚ) (site_type : IdType)
    (_id : IdArg) (data : MediaData) (ignore_for_write_count : Bool) :
    Except PyErr CacheState :=
  match resolveId site_type _id with
  | .error e => .error e
  | .ok rid =>
    let tag := generateIdTag data.media_type rid none
    let s1 : CacheState :=
      { s with
        mediaSlots := aset s.mediaSlots (site_type, tag) ⟨now, data⟩
        change_count :=
          if ignore_for_write_count then s.change_count else s.change_count + 1 }
    if s1.change_count ≥ s1.write_after then writeCache s1 else .ok s1

/-- `Cache.__add_cached` for a user record: same as `addCachedMedia`, but
user records have a `username` attribute, which enters the tag. -/
def addCachedUser (s : CacheState) (now : ℚ) (site_type : IdType)
    (_id : IdArg) (data : MediaUserData) (ignore_for_write_count : Bool) :
    Except PyErr CacheState :=
  match resolveId site_type _id with
  | .error e => .error e
  | .ok rid =>
    let tag := generateIdTag data.media_type rid (some data.username)
    let s1 : CacheState :=
      { s with
        userSlots := aset s.userSlots (site_type, tag) ⟨now, data⟩
        change_count :=
          if ignore_for_write_count then s.change_count else s.change_count + 1 }
    if s1.change_count ≥ s1.write_after then writeCache s1 else .ok s1

/-- `Cache.add_media_data` (`Cache.py` lines 178-199): extracts the site's
nullable id from the record's `Id` and stores via `__add_cached`. -/
def addMediaData (s : CacheState) (now : ℚ) (site_type : IdType)
    (data : MediaData) (ignore_for_write_count : Bool) :
    Except PyErr CacheState :=
  addCachedMedia s now site_type (.raw (idGet data.id site_type)) data
    ignore_for_write_count

/-- `Cache.add_media_user_data` (`Cache.py` lines 201-223). -/
def addMediaUserData (s : CacheState) (now : ℚ) (site_type : IdType)
    (_id : IdArg) (data : MediaUserData) (ignore_for_write_count : Bool) :
    Except PyErr CacheState :=
  addCachedUser s now site_type _id data ignore_for_write_count

/-- `Cache.__get_cached` (`Cache.py` lines 246-277), generic over the slot
map: on a hit, evict and miss when
`now - timestamp > expiration >= 0`, otherwise return a deep copy of the
stored payload; on absence return a miss. The first component is the slot
map after the call (the tag popped exactly on eviction). -/
def getCachedAux {κ α : Type} [DecidableEq κ] (now expiration : ℚ)
    (slots : List (κ × CacheEntry α)) (key : κ) :
    List (κ × CacheEntry α) × Option α :=
  match alookup slots key with
  | none => (slots, none)
  | some entry =>
    if now - entry.timestamp > expiration ∧ expiration ≥ 0 then
      (aremove slots key, none)
    else (slots, some entry.data)

/-- `Cache.get_media_data` (`Cache.py` lines 279-297). -/
def getMediaData (s : CacheState) (now : ℚ) (site_type : IdType)
    (media_type : MediaType) (_id : IdArg) :
    Except PyErr (CacheState × Option MediaData) :=
  match resolveId site_type _id with
  | .error e => .error e
  | .ok rid =>
    let tag := generateIdTag media_type rid none
    let out := getCachedAux now s.expiration s.mediaSlots (site_type, tag)
    .ok ({ s with mediaSlots := out.1 }, out.2)

/-- `Cache.get_media_user_data` (`Cache.py` lines 299-320). -/
def getMediaUserData (s : CacheState) (now : ℚ) (site_type : IdType)
    (media_type : MediaType) (_id : IdArg) (username : String) :
    Except PyErr (CacheState × Option MediaUserData) :=
  match resolveId site_type _id with
  | .error e => .error e
  | .ok rid =>
    let tag := generateIdTag media_type rid (some username)
    let out := getCachedAux now s.expiration s.userSlots (site_type, tag)
    .ok ({ s with userSlots := out.1 }, out.2)

/-- `Cache.get_media_list_entry` (`Cache.py` lines 322-349): fetch the two
halves independently; when both are present and of the queried media kind,
re-pair them through the `MediaListEntry` constructor (whose failure
propagates), otherwise return `None`. -/
def getMediaListEntry (s : CacheState) (now : ℚ) (site_type : IdType)
    (media_type : MediaType) (_id : IdArg) (username : String) :
    Except PyErr (CacheState × Option MediaListEntry) :=
  (getMediaData s now site_type media_type _id).bind fun out1 =>
  (getMediaUserData out1.1 now site_type media_type _id username).bind
    fun out2 =>
  match out1.2, out2.2 with
  | some media_data, some user_data =>
    if media_data.media_type = user_data.media_type
        ∧ media_type = media_data.media_type then
      (mediaListEntryInit media_type media_data user_data).map
        fun e => (out2.1, some e)
    else .ok (out2.1, none)
  | _, _ => .ok (out2.1, none)

/-- `MediaListEntry.get_media_data` as the concrete subclasses implement it
(`MediaListEntry.py` lines 244-260, 297-313): rebuilds a media record from
the entry's attributes; the argument counts match, so this succeeds. -/
def listEntryGetMediaData (e : MediaListEntry) : MediaData :=
  ⟨e.media_type, e.id, e.title, e.relations, e.releasing_status,
    e.releasing_start, e.releasing_end, e.cover_url, e.mediaExtra⟩

/-- `MediaListEntry.get_user_data` as the concrete subclasses implement it
(`MediaListEntry.py` lines 262-276, 315-330): `AnimeListEntry` passes 7
positional arguments starting with `self.id` to `AnimeUserData.__init__`,
which accepts only 6 (`username, score, consuming_status, consuming_start,
consuming_end, episode_progress`); `MangaListEntry` passes 8 to the
7-parameter `MangaUserData.__init__`. Python raises `TypeError` at the
call, before any body runs. -/
def listEntryGetUserData (_ : MediaListEntry) : Except PyErr MediaUserData :=
  .error .typeError

/-- `Cache.add_media_list_entry` (`Cache.py` lines 225-244): store the
media half, then regenerate and store the user half (which dies in
`get_user_data`, see `listEntryGetUserData`). -/
def addMediaListEntry (s : CacheState) (now : ℚ) (site_type : IdType)
    (data : MediaListEntry) (ignore_for_write_count : Bool) :
    Except PyErr CacheState :=
  (addMediaData s now site_type (listEntryGetMediaData data)
      ignore_for_write_count).bind fun s1 =>
  (listEntryGetUserData data).bind fun user_data =>
  addMediaUserData s1 now site_type (.obj data.id) user_data
    ignore_for_write_count

/-- Heap model for the aliasing behaviour of `deepcopy`: mutable caller
objects live in `heap` (a reference is an index); `slots` is the cache's
own tag-indexed storage, holding detached values — which is exactly what
`deepcopy(data)` in `Cache.__add_cached` line 170 produces. -/
structure HeapCache (D : Type) where
  heap : List D
  slots : List (String × D)

/-- `Cache.__add_cached`'s storage step in the heap model: a deep copy of
the object behind reference `r` is stored under `tag` (an invalid
reference is a no-op; the theorems always supply a valid one). -/
def hcAdd {D : Type} (s : HeapCache D) (r : ℕ) (tag : String) : HeapCache D :=
  match s.heap[r]? with
  | none => s
  | some v => { s with slots := aset s.slots tag v }

/-- In-place mutation of the caller-visible object behind reference `r`:
what a python caller can do to an object it holds, after or before handing
it to the cache. -/
def hcMutate {D : Type} (s : HeapCache D) (r : ℕ) (f : D → D) : HeapCache D :=
  match s.heap[r]? with
  | none => s
  | some v => { s with heap := s.heap.set r (f v) }

/-- `Cache.__get_cached`'s return step in the heap model: on a hit a fresh
object holding a deep copy of the stored value (line 275) is allocated and
its reference returned. -/
def hcGet {D : Type} (s : HeapCache D) (tag : String) :
    HeapCache D × Option ℕ :=
  match alookup s.slots tag with
  | none => (s, none)
  | some v => ({ s with heap := s.heap ++ [v] }, some s.heap.length)

/-- The value a caller observes when it dereferences the object `hcGet`
hands back. -/
def hcGetValue {D : Type} (s : HeapCache D) (tag : String) : Option D :=
  match hcGet s tag with
  | (s2, some r2) => s2.heap[r2]?
  | _ => none

/-! ## Helper lemmas -/

theorem alookup_aset {κ α : Type} [DecidableEq κ] (l : List (κ × α)) (k : κ)
    (v : α) : alookup (aset l k v) k = some v := by
  induction l with
  | nil => simp [aset, alookup]
  | cons head tail ih =>
    obtain ⟨k0, w⟩ := head
    by_cases h : k0 = k
    · simp [aset, h, alookup]
    · simp [aset, h, alookup, ih]

theorem alookup_aremove {κ α : Type} [DecidableEq κ] (l : List (κ × α))
    (k : κ) : alookup (aremove l k) k = none := by
  induction l with
  | nil => simp [aremove, alookup]
  | cons head tail ih =>
    obtain ⟨k0, w⟩ := head
    by_cases h : k0 = k
    · simpa [aremove, h] using ih
    · simpa [aremove, alookup, h] using ih

theorem getCachedAux_hit_fresh {κ α : Type} [DecidableEq κ]
    (slots : List (κ × CacheEntry α)) (key : κ) (entry : CacheEntry α)
    (now T : ℚ) (hfound : alookup slots key = some entry)
    (hc : ¬ (now - entry.timestamp > T ∧ T ≥ 0)) :
    getCachedAux now T slots key = (slots, some entry.data) := by
  simp [getCachedAux, hfound, hc]

theorem pyRound_zero : pyRound 0 = 0 := by
  norm_num [pyRound]

theorem pyRound_ne_zero {q : ℚ} (h : 1 ≤ q) : pyRound q ≠ 0 := by
  have hf : (1 : ℤ) ≤ ⌊q⌋ := by
    rw [Int.le_floor]
    exact_mod_cast h
  simp only [pyRound]
  split_ifs <;> omega

/-- For a score `v` valid on its scale (`0 ≤ v ≤ max`), the percentage
conversion `round(v / max * 100)` is zero exactly when `v` is: every scale
maximum is at most 100, so one point is at least one percent. -/
theorem scoreConvertVal_percentage_zero (v : ℤ) (m : ScoreType)
    (h0 : 0 ≤ v) (h1 : v ≤ m.maxVal) :
    (scoreConvertVal v m .PERCENTAGE = 0 ↔ v = 0) := by
  constructor
  · intro h
    by_contra hne
    have hv1 : (1 : ℤ) ≤ v := by omega
    have hv1q : (1 : ℚ) ≤ (v : ℚ) := by exact_mod_cast hv1
    refine pyRound_ne_zero ?_ h
    cases m <;> simp only [ScoreType.maxVal] <;> push_cast <;> linarith
  · intro h
    subst h
    simp [scoreConvertVal, pyRound_zero]

/-! ## Sample data, mirroring the repository's own test fixtures -/

/-- The sample title of `TestMediaData` (`Title({ROMAJI: "Test"})`). -/
def sampleTitle : Title := ⟨⟨some "Test", none, none⟩, .ROMAJI⟩

/-- The sample relation of `TestMediaData`. -/
def sampleRelation : Relation :=
  ⟨⟨some 1, none, none⟩, .ANIME, ⟨some 2, none, none⟩, .MANGA, .SEQUEL⟩

/-- The sample `AnimeData` of `TestMediaData.generate_sample_anime_data`. -/
def sampleAnimeData : MediaData :=
  mkAnimeData ⟨some 1, none, none⟩ sampleTitle [sampleRelation] .FINISHED
    (some ⟨2018, 1, 1⟩) (some ⟨2018, 4, 4⟩)
    (some "https://example.com/image.png") (some 12) (some 25)

/-- The sample score used throughout the repository's tests. -/
def sampleScore : Score := ⟨55, .PERCENTAGE⟩

/-- The sample `AnimeUserData` of
`TestMediaUserData.generate_sample_anime_user_data`. -/
def sampleAnimeUserData : MediaUserData :=
  mkAnimeUserData "namboy94" sampleScore .COMPLETED
    (some ⟨2018, 1, 1⟩) (some ⟨2018, 4, 4⟩) 12

/-! ## Claim theorems -/

/-- C6: `Score.__init__` accepts an integer `v` on a scale with maximum `m`
iff `0 ≤ v ≤ m` and raises `ValueError` otherwise; `Score.get` with a
target scale computes `round(v / source.max * target.max)`; in particular
`Score(77, PERCENTAGE).get(TEN_POINT) = 8`, and `Score(50, PERCENTAGE)`
converted in place to `TEN_POINT` and read back yields `5`. -/
theorem score_range_and_conversion :
    (∀ (v : ℤ) (t : ScoreType),
      (scoreInit v t = .ok ⟨v, t⟩ ↔ 0 ≤ v ∧ v ≤ t.maxVal) ∧
      (scoreInit v t = .error .valueError ↔ ¬ (0 ≤ v ∧ v ≤ t.maxVal))) ∧
    (∀ (s : Score) (dest : ScoreType),
      scoreGet s (some dest) =
        pyRound ((s.score : ℚ) / (s.mode.maxVal : ℚ) * (dest.maxVal : ℚ))) ∧
    scoreGet ⟨77, .PERCENTAGE⟩ (some .TEN_POINT) = 8 ∧
    scoreGet (scoreConvert ⟨50, .PERCENTAGE⟩ .TEN_POINT) none = 5 := by
  refine ⟨fun v t => ?_, fun s dest => rfl, ?_, ?_⟩
  · constructor
    · by_cases h : v < 0 ∨ v > t.maxVal <;> simp [scoreInit, h] <;> omega
    · by_cases h : v < 0 ∨ v > t.maxVal <;> simp [scoreInit, h] <;> omega
  · norm_num [scoreGet, scoreConvertVal, ScoreType.maxVal, pyRound]
  · norm_num [scoreGet, scoreConvert, scoreConvertVal, ScoreType.maxVal,
      pyRound]

/-- C5: `MediaUserData.is_valid_entry` implements the snapshot table for a
user record whose score is valid on its scale: `COMPLETED`/`REPEATING`
need a non-zero score and both dates, `CURRENT`/`PAUSED`/`DROPPED` need a
start date and no end date with the score unconstrained, and `PLANNING`
needs a zero score and no dates. (The code's zero test is
`score.get(PERCENTAGE) == 0`, which `scoreConvertVal_percentage_zero`
shows agrees with `score == 0` for valid scores.) -/
theorem userdata_validity_table (u : MediaUserData)
    (h0 : 0 ≤ u.score.score) (h1 : u.score.score ≤ u.score.mode.maxVal) :
    (isValidEntry u = true ↔
      (if u.consuming_status = .COMPLETED ∨ u.consuming_status = .REPEATING
       then u.score.score ≠ 0 ∧ u.consuming_start ≠ none ∧
         u.consuming_end ≠ none
       else if u.consuming_status = .CURRENT ∨ u.consuming_status = .PAUSED
          ∨ u.consuming_status = .DROPPED
       then u.consuming_start ≠ none ∧ u.consuming_end = none
       else u.score.score = 0 ∧ u.consuming_start = none ∧
         u.consuming_end = none)) := by
  obtain ⟨mt, un, sc, cs, st, en, ex⟩ := u
  obtain ⟨v, m⟩ := sc
  simp only at h0 h1
  cases cs <;>
    simp [isValidEntry, scoreGet, Option.isNone_iff_eq_none,
      Option.isSome_iff_ne_none, scoreConvertVal_percentage_zero v m h0 h1,
      and_assoc, and_comm]

/-- Witness for C5 at the repository's own sample record (`COMPLETED`,
score 55%, both dates set — the spec's §8 example of a valid entry). -/
theorem userdata_validity_table_witness :
    isValidEntry sampleAnimeUserData = true := by
  have h := userdata_validity_table sampleAnimeUserData (by decide) (by decide)
  rw [h]
  decide

/-- Statement of the spec's default-title selection rule, for comparison
with the constructor's scan: the highest-priority populated locale, with
priority descending `ROMAJI`, `ENGLISH`, `JAPANESE` (the order the
repository's tests confirm: `{ENGLISH, JAPANESE}` selects `ENGLISH`). -/
def specPriorityChoice (m : TitleMap) : Option TitleType :=
  if m.romaji.isSome then some .ROMAJI
  else if m.english.isSome then some .ENGLISH
  else if m.japanese.isSome then some .JAPANESE
  else none

/-- C7: when the requested default locale has no populated value, the
descending scan of `Title.__init__` deterministically selects the
highest-priority populated locale (`specPriorityChoice`), and `Title.get()`
with no argument then returns that locale's (populated) string. -/
theorem title_default_fallback (m : TitleMap) (dflt : TitleType) (t : Title)
    (hd : tmGet m dflt = none) (hinit : titleInit m dflt = .ok t) :
    some t.dftype = specPriorityChoice m ∧
    titleGet t none = tmGet m t.dftype ∧
    (tmGet m t.dftype).isSome = true := by
  obtain ⟨r, e, j⟩ := m
  obtain ⟨tm, td⟩ := t
  cases r <;> cases e <;> cases j <;> cases dflt <;>
    simp_all [titleInit, titleScanDefault, titleGet, tmGet,
      specPriorityChoice] <;>
    (try (obtain ⟨h1, h2⟩ := hinit; subst h1; subst h2; simp [tmGet]))

/-- Witness for C7 at the fixture of the repository's own test
`test_automatically_using_different_default_title_type`: titles for
`ENGLISH` and `JAPANESE` only, requested default `ROMAJI`. -/
theorem title_default_fallback_witness :
    some (Title.dftype ⟨⟨none, some "Attack on Titan", some "AoT-jp"⟩,
        .ENGLISH⟩) =
      specPriorityChoice ⟨none, some "Attack on Titan", some "AoT-jp"⟩ ∧
    titleGet ⟨⟨none, some "Attack on Titan", some "AoT-jp"⟩, .ENGLISH⟩ none =
      tmGet ⟨none, some "Attack on Titan", some "AoT-jp"⟩ .ENGLISH ∧
    (tmGet ⟨none, some "Attack on Titan", some "AoT-jp"⟩ .ENGLISH).isSome =
      true :=
  title_default_fallback ⟨none, some "Attack on Titan", some "AoT-jp"⟩
    .ROMAJI ⟨⟨none, some "Attack on Titan", some "AoT-jp"⟩, .ENGLISH⟩ rfl rfl

/-- C10: `Serializable.type_check(obj, int)` rejects python booleans even
though `bool` is a subclass of `int`, and `None` passes exactly when
`none_allowed` is set; `ensure_type` raises `TypeError` exactly when
`type_check` fails. But `Id.set` does NOT go through `ensure_type`: it
tests bare `isinstance(_id, int)`, which `True`/`False` satisfy, so it
accepts and stores them (its own test,
`TestId.test_setting_invalid_ids`, expects a `TypeError` here). -/
theorem typecheck_bool_and_idset :
    (∀ b : Bool, typeCheck (.vbool b) .tint false = false ∧
      typeCheck (.vbool b) .tint true = false) ∧
    (∀ na : Bool, typeCheck .vnone .tint na = na) ∧
    (∀ (obj : PyVal) (typ : PyType) (na : Bool),
      ensureType obj typ na = .ok () ↔ typeCheck obj typ na = true) ∧
    idSet (.vbool true) = .ok (.vbool true) ∧
    idSet (.vbool false) = .ok (.vbool false) := by
  refine ⟨by decide, by decide, fun obj typ na => ?_, rfl, rfl⟩
  by_cases h : typeCheck obj typ na = true <;> simp [ensureType, h]

/-- C1: `Id.serialize` as committed raises `NotImplementedError`
unconditionally, so no `Id` — and hence no `Relation`, `MediaData` or
`MediaListEntry`, whose serializers call it — can be serialized at all,
let alone round-tripped; the repository's own
`TestId.test_serialization` expects a dictionary instead. -/
theorem id_serialize_raises :
    idSerialize ⟨some 1, none, none⟩ = .error .notImplementedError ∧
    ∀ (i : Id) (out : List (String × Option ℤ)), idSerialize i ≠ .ok out := by
  exact ⟨rfl, fun i out h => by simp [idSerialize] at h⟩

/-- C2: `MediaListEntry.__init__` can never succeed: after the class
checks it reads `user_data.id`, an attribute no `MediaUserData`
constructor sets, so every construction — including the repository's own
sample pairing, whose ids and kinds match — dies with `AttributeError`
instead of checking the pairing invariant. -/
theorem listentry_ctor_always_raises :
    mediaListEntryInit .ANIME sampleAnimeData sampleAnimeUserData =
      .error .attributeError ∧
    ∀ (mt : MediaType) (m : MediaData) (u : MediaUserData)
      (e : MediaListEntry), mediaListEntryInit mt m u ≠ .ok e := by
  constructor
  · rfl
  · intro mt m u e h
    simp only [mediaListEntryInit, userDataIdAttr] at h
    split_ifs at h

/-- C4: on a hit, `Cache.__get_cached` misses and evicts the slot exactly
when the record's age exceeds the expiration and the expiration is
non-negative; a negative expiration never expires; an unexpired hit leaves
the store unchanged and returns the stored payload (a deep copy of it);
and at the TTL boundary a record written at `t0` with expiration `T` is
still returned at `t0 + T - eps` and is a miss at `t0 + T + eps`. -/
theorem cache_ttl_eviction {α : Type} (slots : List (SlotKey × CacheEntry α))
    (key : SlotKey) (entry : CacheEntry α) (now t0 T eps : ℚ)
    (hfound : alookup slots key = some entry) :
    ((getCachedAux now T slots key).2 = none ↔
      (now - entry.timestamp > T ∧ 0 ≤ T)) ∧
    (now - entry.timestamp > T ∧ 0 ≤ T →
      alookup (getCachedAux now T slots key).1 key = none) ∧
    (¬ (now - entry.timestamp > T ∧ 0 ≤ T) →
      getCachedAux now T slots key = (slots, some entry.data)) ∧
    (T < 0 → (getCachedAux now T slots key).2 = some entry.data) ∧
    (entry.timestamp = t0 → 0 ≤ T → 0 < eps →
      (getCachedAux (t0 + T - eps) T slots key).2 = some entry.data ∧
      (getCachedAux (t0 + T + eps) T slots key).2 = none) := by
  have hbase : ∀ n : ℚ, getCachedAux n T slots key =
      if n - entry.timestamp > T ∧ T ≥ 0 then (aremove slots key, none)
      else (slots, some entry.data) := by
    intro n
    simp [getCachedAux, hfound]
  refine ⟨?_, ?_, ?_, ?_, ?_⟩
  · by_cases hc : now - entry.timestamp > T ∧ 0 ≤ T <;>
      simp [hbase, hc, ge_iff_le]
  · intro hc
    rw [hbase, if_pos (by exact ⟨hc.1, hc.2⟩)]
    exact alookup_aremove slots key
  · intro hc
    rw [hbase, if_neg (by exact fun h => hc ⟨h.1, h.2⟩)]
  · intro hT
    rw [hbase, if_neg (by intro h; linarith [h.2])]
  · intro he hT heps
    constructor
    · rw [hbase, if_neg]
      intro h
      rw [he] at h
      have := h.1
      linarith
    · rw [hbase, if_pos]
      exact ⟨by rw [he]; linarith, hT⟩

/-- Witness for C4: one slot written at time 0 with expiration 3 is still
returned at time `0 + 3 - 1` and is a miss at time `0 + 3 + 1`. -/
theorem cache_ttl_eviction_witness :
    (getCachedAux ((0 : ℚ) + 3 - 1) 3
      [((IdType.MYANIMELIST, "ANIME-1"), (⟨0, (7 : ℤ)⟩ : CacheEntry ℤ))]
      (IdType.MYANIMELIST, "ANIME-1")).2 = some 7 ∧
    (getCachedAux ((0 : ℚ) + 3 + 1) 3
      [((IdType.MYANIMELIST, "ANIME-1"), (⟨0, (7 : ℤ)⟩ : CacheEntry ℤ))]
      (IdType.MYANIMELIST, "ANIME-1")).2 = none := by
  have h := cache_ttl_eviction
    [((IdType.MYANIMELIST, "ANIME-1"), (⟨0, (7 : ℤ)⟩ : CacheEntry ℤ))]
    (IdType.MYANIMELIST, "ANIME-1") ⟨0, 7⟩ 4 0 3 1 rfl
  exact h.2.2.2.2 rfl (by norm_num) (by norm_num)

/-- A sample user record for the write-after scenario: `CURRENT`, started,
no finish date. -/
def c3u (name : String) : MediaUserData :=
  mkAnimeUserData name sampleScore .CURRENT (some ⟨2018, 1, 1⟩) none 5

/-- Slot key of `c3u name` entries on MyAnimeList. -/
def c3key (name : String) : SlotKey :=
  (IdType.MYANIMELIST, "ANIME-1-" ++ name)

/-- A cache right after startup: empty store, empty file already written,
`write_after = 2`. -/
def c3Start : CacheState := ⟨6000, 2, 0, [], [], some ⟨[], []⟩⟩

/-- The cache after one non-suppressed user-data add at time 0. -/
def c3S1 : CacheState :=
  ⟨6000, 2, 1, [], [(c3key "a", ⟨0, c3u "a"⟩)], some ⟨[], []⟩⟩

/-- The cache after a second add at time 1: the threshold is reached, so
the store was flushed — but `change_count` stays 2. -/
def c3S2 : CacheState :=
  ⟨6000, 2, 2, [],
    [(c3key "a", ⟨0, c3u "a"⟩), (c3key "b", ⟨1, c3u "b"⟩)],
    some ⟨[], [(c3key "a", ⟨0, c3u "a"⟩), (c3key "b", ⟨1, c3u "b"⟩)]⟩⟩

/-- The cache after a third add at time 2: `change_count` is 3, still at or
above the threshold, so this add flushes again. -/
def c3S3 : CacheState :=
  ⟨6000, 2, 3, [],
    [(c3key "a", ⟨0, c3u "a"⟩), (c3key "b", ⟨1, c3u "b"⟩),
      (c3key "c", ⟨2, c3u "c"⟩)],
    some ⟨[], [(c3key "a", ⟨0, c3u "a"⟩), (c3key "b", ⟨1, c3u "b"⟩),
      (c3key "c", ⟨2, c3u "c"⟩)]⟩⟩

/-- C3: with `write_after = 2`, the first add leaves the file one write
behind, the second add flushes the whole store — but since `Cache.write`
never resets `change_count`, the counter stays at the threshold and the
third add flushes again immediately (the claim's reset would leave the
third write unflushed). Moreover `Cache.write` itself raises
`NotImplementedError` whenever any media record is stored, because
serializing it calls `Id.serialize`. -/
theorem cache_writeafter_not_reset :
    addMediaUserData c3Start 0 .MYANIMELIST (.raw (some 1)) (c3u "a") false =
      .ok c3S1 ∧
    c3S1.fileData = some ⟨[], []⟩ ∧
    addMediaUserData c3S1 1 .MYANIMELIST (.raw (some 1)) (c3u "b") false =
      .ok c3S2 ∧
    c3S2.change_count = 2 ∧
    c3S2.fileData = some ⟨[], c3S2.userSlots⟩ ∧
    addMediaUserData c3S2 2 .MYANIMELIST (.raw (some 1)) (c3u "c") false =
      .ok c3S3 ∧
    c3S3.change_count = 3 ∧
    c3S3.fileData = some ⟨[], c3S3.userSlots⟩ ∧
    alookup c3S3.userSlots (c3key "c") = some ⟨2, c3u "c"⟩ ∧
    writeCache ⟨6000, 2, 0,
      [((IdType.MYANIMELIST, "ANIME-1"), ⟨0, sampleAnimeData⟩)], [], none⟩ =
      .error .notImplementedError := by
  exact ⟨rfl, rfl, rfl, rfl, rfl, rfl, rfl, rfl, by decide, rfl⟩

/-- A cache holding both halves of the sample list entry, freshly written
at time 0. -/
def sampleCacheBoth : CacheState :=
  ⟨6000, 20, 0,
    [((IdType.MYANIMELIST, "ANIME-1"), ⟨0, sampleAnimeData⟩)],
    [((IdType.MYANIMELIST, "ANIME-1-namboy94"), ⟨0, sampleAnimeUserData⟩)],
    none⟩

/-- The same cache with the user-data half missing. -/
def sampleCacheMediaOnly : CacheState :=
  ⟨6000, 20, 0,
    [((IdType.MYANIMELIST, "ANIME-1"), ⟨0, sampleAnimeData⟩)],
    [], none⟩

/-- C9: `get_media_list_entry` with both halves present, unexpired and of
the queried kind reaches the `MediaListEntry` constructor — which raises
`AttributeError` (see `listentry_ctor_always_raises`) instead of returning
the reconstructed entry; with the user half missing it returns `None` as
claimed. Also, `add_media_list_entry` always raises `TypeError`, because
`get_user_data` calls the user-data constructor with one extra positional
argument. -/
theorem listentry_repair_raises :
    getMediaListEntry sampleCacheBoth 1 .MYANIMELIST .ANIME (.raw (some 1))
      "namboy94" = .error .attributeError ∧
    getMediaListEntry sampleCacheMediaOnly 1 .MYANIMELIST .ANIME
      (.raw (some 1)) "namboy94" = .ok (sampleCacheMediaOnly, none) ∧
    ∀ (e : MediaListEntry) (s2 : CacheState),
      addMediaListEntry sampleCacheMediaOnly 1 .MYANIMELIST e false ≠
        .ok s2 := by
  have h1 : getMediaData sampleCacheBoth 1 .MYANIMELIST .ANIME
      (.raw (some 1)) = .ok (sampleCacheBoth, some sampleAnimeData) := by
    simp only [getMediaData, resolveId]
    rw [show generateIdTag .ANIME (some 1) none = "ANIME-1" from rfl]
    rw [getCachedAux_hit_fresh sampleCacheBoth.mediaSlots
      (IdType.MYANIMELIST, "ANIME-1") ⟨0, sampleAnimeData⟩ 1
      sampleCacheBoth.expiration rfl (by norm_num [sampleCacheBoth])]
  have h2 : getMediaUserData sampleCacheBoth 1 .MYANIMELIST .ANIME
      (.raw (some 1)) "namboy94" =
      .ok (sampleCacheBoth, some sampleAnimeUserData) := by
    simp only [getMediaUserData, resolveId]
    rw [show generateIdTag .ANIME (some 1) (some "namboy94") =
      "ANIME-1-namboy94" from rfl]
    rw [getCachedAux_hit_fresh sampleCacheBoth.userSlots
      (IdType.MYANIMELIST, "ANIME-1-namboy94") ⟨0, sampleAnimeUserData⟩ 1
      sampleCacheBoth.expiration rfl (by norm_num [sampleCacheBoth])]
  have h1m : getMediaData sampleCacheMediaOnly 1 .MYANIMELIST .ANIME
      (.raw (some 1)) = .ok (sampleCacheMediaOnly, some sampleAnimeData) := by
    simp only [getMediaData, resolveId]
    rw [show generateIdTag .ANIME (some 1) none = "ANIME-1" from rfl]
    rw [getCachedAux_hit_fresh sampleCacheMediaOnly.mediaSlots
      (IdType.MYANIMELIST, "ANIME-1") ⟨0, sampleAnimeData⟩ 1
      sampleCacheMediaOnly.expiration rfl
      (by norm_num [sampleCacheMediaOnly])]
  have h2m : getMediaUserData sampleCacheMediaOnly 1 .MYANIMELIST .ANIME
      (.raw (some 1)) "namboy94" = .ok (sampleCacheMediaOnly, none) := rfl
  refine ⟨?_, ?_, fun e s2 h => ?_⟩
  · simp only [getMediaListEntry]
    rw [h1]
    simp only [Except.bind]
    rw [h2]
    simp only [Except.bind]
    rw [if_pos ⟨rfl, rfl⟩]
    rw [show mediaListEntryInit .ANIME sampleAnimeData sampleAnimeUserData =
      .error .attributeError from rfl]
    rfl
  · simp only [getMediaListEntry]
    rw [h1m]
    simp only [Except.bind]
    rw [h2m]
  · simp only [addMediaListEntry, listEntryGetUserData] at h
    rcases hm : addMediaData sampleCacheMediaOnly 1 .MYANIMELIST
        (listEntryGetMediaData e) false with e1 | s1 <;>
      rw [hm] at h <;> exact Except.noConfusion h

/-- C8: the cache's `deepcopy`-on-store and `deepcopy`-on-retrieve
decouple it from its callers. Mutating the caller's object after an add
does not change what a later get returns (even though the mutation really
changed the object), and mutating the object a get handed back changes
neither the stored slot nor what a second get returns. -/
theorem cache_deepcopy_isolation {D : Type} (s : HeapCache D) (r : ℕ)
    (tag : String) (v : D) (f g : D → D)
    (hr : s.heap[r]? = some v) (hf : f v ≠ v) :
    (hcGetValue (hcMutate (hcAdd s r tag) r f) tag = some v ∧
      hcGetValue (hcMutate (hcAdd s r tag) r f) tag ≠ some (f v)) ∧
    (∀ (s2 : HeapCache D) (r2 : ℕ),
      hcGet (hcAdd s r tag) tag = (s2, some r2) →
      alookup (hcMutate s2 r2 g).slots tag = some v ∧
      hcGetValue (hcMutate s2 r2 g) tag = some v) := by
  have hadd : hcAdd s r tag = ⟨s.heap, aset s.slots tag v⟩ := by
    simp [hcAdd, hr]
  have hlook : alookup (aset s.slots tag v) tag = some v :=
    alookup_aset s.slots tag v
  have hmut : hcMutate (⟨s.heap, aset s.slots tag v⟩ : HeapCache D) r f =
      ⟨s.heap.set r (f v), aset s.slots tag v⟩ := by
    simp [hcMutate, hr]
  have hval : hcGetValue (⟨s.heap.set r (f v), aset s.slots tag v⟩ :
      HeapCache D) tag = some v := by
    simp only [hcGetValue, hcGet, hlook]
    exact List.getElem?_concat_length _ _
  constructor
  · rw [hadd, hmut]
    refine ⟨hval, ?_⟩
    rw [hval]
    intro hcon
    exact hf (Option.some.inj hcon).symm
  · intro s2 r2 hget
    rw [hadd] at hget
    simp only [hcGet, hlook] at hget
    obtain ⟨hs2, hr2⟩ := Prod.mk.injEq .. ▸ hget
    have hr2' : r2 = s.heap.length := (Option.some.inj hr2).symm
    subst hs2
    subst hr2'
    have hget2 : (⟨s.heap ++ [v], aset s.slots tag v⟩ :
        HeapCache D).heap[s.heap.length]? = some v :=
      List.getElem?_concat_length _ _
    simp only [hcMutate, hget2]
    refine ⟨hlook, ?_⟩
    simp only [hcGetValue, hcGet, hlook]
    exact List.getElem?_concat_length _ _

/-- Witness for C8 at a one-object heap holding the integer 5: after the
add, incrementing the caller's object leaves the later get at 5, and
incrementing the object a get returned leaves a second get at 5. -/
theorem cache_deepcopy_isolation_witness :
    hcGetValue (hcMutate (hcAdd (⟨[(5 : ℤ)], []⟩ : HeapCache ℤ) 0 "tag") 0
      (fun x => x + 1)) "tag" = some 5 ∧
    hcGetValue (hcMutate (⟨[(5 : ℤ), 5], [("tag", 5)]⟩ : HeapCache ℤ) 1
      (fun x => x + 2)) "tag" = some 5 := by
  have h := cache_deepcopy_isolation (⟨[(5 : ℤ)], []⟩ : HeapCache ℤ) 0 "tag"
    5 (fun x => x + 1) (fun x => x + 2) rfl (by decide)
  exact ⟨h.1.1, (h.2 ⟨[5, 5], [("tag", 5)]⟩ 1 rfl).2⟩

end AnimeList
